import Mathlib

/-!
Verification development for the MyPair pairing service.

The repository consists of a single Express route module that drives one
pairing attempt against a remote messaging endpoint: it prepares a fresh
per-number auth-state directory, opens a protocol client, requests a
pairing code when the fresh credentials are not registered, and installs
asynchronous handlers (a connection-update handler and a timeout guard)
for the registered branch.  This file gives a shallow embedding of that
module: the pure phone-number normalizer is embedded as a function on
character lists, the session-directory cleanup as a function on an
explicit file-system model, and the route handler, connection-update
handler and timeout guard as trace-producing functions over oracles that
stand for the outcomes of the external calls (registration flag, result
of the pairing-code request, credential-file read, message sends).
-/

/-! ## Phone-number normalization

Embedding of the function at src/pair.js lines 28-43.  Strings are
modelled as lists of characters.  The regular expression replace
removing every character that is neither a digit nor a plus sign becomes
a filter; the startsWith-plus test followed by substring becomes
stripLeadingPlus; the test against the anchored pattern of one digit in
one to nine followed by one or two digits becomes matchesCountryCode
(the pattern matches exactly when the first character is between one and
nine and the second character is a digit; the upper repetition bound is
irrelevant to whether a match exists). -/

/-- Characters kept by the replace on line 30: digits and the plus sign. -/
def keepDigitPlus (c : Char) : Bool := c.isDigit || c == '+'

/-- Lines 33-35: drop a single leading plus sign when present. -/
def stripLeadingPlus : List Char → List Char
  | [] => []
  | c :: rest => if c = '+' then rest else c :: rest

/-- Line 38: whether the anchored pattern (one character between one and
nine, then at least one digit) matches at the start of the string. -/
def matchesCountryCode : List Char → Bool
  | c1 :: c2 :: _ => (decide ('1' ≤ c1) && decide (c1 ≤ '9')) && c2.isDigit
  | _ => false

/-- Embedding of formatPhoneNumber, src/pair.js lines 28-43: filter the
kept characters, strip a single leading plus, and prepend the default
country code 62 when the country-code pattern does not match. -/
def formatPhoneNumber (num : List Char) : List Char :=
  if matchesCountryCode (stripLeadingPlus (num.filter keepDigitPlus)) then
    stripLeadingPlus (num.filter keepDigitPlus)
  else
    '6' :: '2' :: stripLeadingPlus (num.filter keepDigitPlus)

lemma mem_stripLeadingPlus {c : Char} {l : List Char}
    (h : c ∈ stripLeadingPlus l) : c ∈ l := by
  cases l with
  | nil => simp [stripLeadingPlus] at h
  | cons a rest =>
    by_cases ha : a = '+'
    · subst ha
      simp only [stripLeadingPlus, if_pos rfl] at h
      exact List.mem_cons_of_mem _ h
    · simpa [stripLeadingPlus, ha] using h

lemma formatPhoneNumber_all_kept (num : List Char) :
    ∀ c ∈ formatPhoneNumber num, keepDigitPlus c = true := by
  intro c hc
  unfold formatPhoneNumber at hc
  split at hc
  · exact List.of_mem_filter (mem_stripLeadingPlus hc)
  · rcases List.mem_cons.mp hc with h6 | hc2
    · subst h6; decide
    · rcases List.mem_cons.mp hc2 with h2 | hc3
      · subst h2; decide
      · exact List.of_mem_filter (mem_stripLeadingPlus hc3)

lemma matchesCountryCode_formatPhoneNumber (num : List Char) :
    matchesCountryCode (formatPhoneNumber num) = true := by
  unfold formatPhoneNumber
  split
  · assumption
  · rfl

lemma formatPhoneNumber_ne_nil (num : List Char) : formatPhoneNumber num ≠ [] := by
  intro h
  have hm := matchesCountryCode_formatPhoneNumber num
  rw [h] at hm
  simp [matchesCountryCode] at hm

lemma stripLeadingPlus_of_matches (l : List Char)
    (h : matchesCountryCode l = true) : stripLeadingPlus l = l := by
  match l with
  | [] => simp [matchesCountryCode] at h
  | [c] => simp [matchesCountryCode] at h
  | c1 :: c2 :: rest =>
    simp only [matchesCountryCode, Bool.and_eq_true, decide_eq_true_eq] at h
    have hne : c1 ≠ '+' := by
      intro hc
      subst hc
      exact absurd h.1.1 (by decide)
    simp [stripLeadingPlus, hne]

lemma formatPhoneNumber_fixed (l : List Char)
    (h1 : l.filter keepDigitPlus = l)
    (h2 : stripLeadingPlus l = l)
    (h3 : matchesCountryCode l = true) :
    formatPhoneNumber l = l := by
  unfold formatPhoneNumber
  rw [h1, h2]
  simp [h3]

/-- C7 counterexample: the claim that the result consists only of digits
fails on the input 1+2, whose inner plus sign survives the filter and is
not stripped; the result 621+2 contains the non-digit plus character. -/
theorem formatPhoneNumber_digits_only_false :
    formatPhoneNumber ['1', '+', '2'] = ['6', '2', '1', '+', '2']
  ∧ '+' ∈ formatPhoneNumber ['1', '+', '2']
  ∧ ('+').isDigit = false := by
  decide

/-- C7 (amended): for every input string the normalizer returns a
non-empty string consisting only of digits and plus-sign characters
(every character other than a digit or a plus sign is removed; at most
one leading plus sign is stripped). -/
theorem formatPhoneNumber_nonempty_digits_or_plus (s : List Char) :
    formatPhoneNumber s ≠ []
  ∧ (formatPhoneNumber s).all (fun c => c.isDigit || c == '+') = true := by
  refine ⟨formatPhoneNumber_ne_nil s, ?_⟩
  rw [List.all_eq_true]
  intro c hc
  exact formatPhoneNumber_all_kept s c hc

/-- C10: the phone-number normalizer is idempotent: applying it twice
yields the same result as applying it once. -/
theorem formatPhoneNumber_idempotent (num : List Char) :
    formatPhoneNumber (formatPhoneNumber num) = formatPhoneNumber num := by
  have hall := formatPhoneNumber_all_kept num
  have hfilter : (formatPhoneNumber num).filter keepDigitPlus = formatPhoneNumber num :=
    List.filter_eq_self.mpr hall
  have hcc := matchesCountryCode_formatPhoneNumber num
  have hstrip := stripLeadingPlus_of_matches _ hcc
  exact formatPhoneNumber_fixed _ hfilter hstrip hcc

/-! ## Session-directory cleanup

Embedding of cleanupSession, src/pair.js lines 20-26.  The file system
is modelled as the set of existing session directories, a boolean
predicate on directory names.  The recursive forced remove never fails
on a missing path; other internal input-output failures are modelled by
an explicit error flag.  cleanupSession wraps the remove in a
try-catch whose catch only logs, so it is a total function on the model:
on an internal error the file system is returned unchanged and nothing
propagates. -/

/-- File-system model: which session directories currently exist. -/
abbrev FS := String → Bool

/-- Model of the recursive forced remove on line 22: removing a missing
directory succeeds (the force option), and an internal input-output
failure is signalled through the error flag. -/
def fsRm (fs : FS) (dir : String) (ioError : Bool) : Except String FS :=
  if ioError then Except.error "io error"
  else Except.ok (fun d => if d = dir then false else fs d)

/-- Embedding of cleanupSession, lines 20-26: attempt the remove and
swallow (log only) any error. -/
def cleanupSession (fs : FS) (dir : String) (ioError : Bool) : FS :=
  match fsRm fs dir ioError with
  | Except.ok fsNew => fsNew
  | Except.error _ => fs

/-- C8: cleanupSession is total and idempotent: an internal remove error
is swallowed (the function returns, never raises), a successful call
leaves the directory absent (also when it was already absent, since the
model of the forced remove accepts a missing path), repeating the call
along any further path leaves the same final state, and directories of
other identities are never altered. -/
theorem cleanupSession_idempotent_never_raises
    (fs : FS) (dir d : String) (e : Bool) (hd : d ≠ dir) :
    cleanupSession fs dir true = fs
  ∧ cleanupSession fs dir false dir = false
  ∧ cleanupSession (cleanupSession fs dir false) dir e = cleanupSession fs dir false
  ∧ cleanupSession fs dir e d = fs d := by
  refine ⟨rfl, by simp [cleanupSession, fsRm], ?_, ?_⟩
  · cases e with
    | true => rfl
    | false =>
      funext x
      by_cases hx : x = dir <;> simp [cleanupSession, fsRm, hx]
  · cases e with
    | true => rfl
    | false => simp [cleanupSession, fsRm, hd]

/-- Witness for the C8 theorem at a concrete file system, directory and
second identity. -/
theorem cleanupSession_idempotent_never_raises_witness :
    (("session_b" : String) ≠ "session_a")
  ∧ (cleanupSession (fun _ => true) "session_a" true = (fun _ => true)
     ∧ cleanupSession (fun _ => true) "session_a" false "session_a" = false
     ∧ cleanupSession (cleanupSession (fun _ => true) "session_a" false) "session_a" false =
         cleanupSession (fun _ => true) "session_a" false
     ∧ cleanupSession (fun _ => true) "session_a" false "session_b" =
         (fun _ => true : FS) "session_b") :=
  ⟨by decide,
   cleanupSession_idempotent_never_raises (fun _ => true) "session_a" "session_b" false
     (by decide)⟩

/-! ## Traces of the route handler and its asynchronous callbacks

The route handler (src/pair.js lines 45-161), the connection-update
handler (lines 92-143) and the timeout guard (lines 146-154) perform
calls on external collaborators.  They are embedded as functions that
return the list of those calls in program order, driven by oracles for
the results the collaborators return: whether the fresh credentials are
registered, the result of the pairing-code request, the result of the
credential-file read, and whether the two message sends succeed. -/

/-- Responses the handler can write to the caller, src/pair.js lines
50, 77-81, 85, 151 and 159. -/
inductive Resp where
  | badRequest
  | pairing (code : String)
  | pairingFailed
  | timedOut
  | initFailed
deriving DecidableEq

/-- HTTP status of each response, from the status calls in the source
(res.json with no status call defaults to 200). -/
def Resp.statusCode : Resp → Nat
  | Resp.badRequest => 400
  | Resp.pairing _ => 200
  | Resp.pairingFailed => 500
  | Resp.timedOut => 408
  | Resp.initFailed => 500

/-- Error message carried by each response, from the json bodies in the
source. -/
def Resp.errorMessage : Resp → Option String
  | Resp.badRequest => some "Phone number is required"
  | Resp.pairing _ => none
  | Resp.pairingFailed => some "Failed to generate pairing code"
  | Resp.timedOut => some "Session initialization timed out"
  | Resp.initFailed => some "Failed to initialize session"

/-- Calls the handler and its callbacks make on external collaborators,
in source order.  routerGetReqRes stands for the call on line 137,
router.get invoked with the stale request and response objects: in
Express this registers a route and, because neither argument is a
function, raises a TypeError inside the callback; it does not re-invoke
the route handler. -/
inductive Act where
  | cleanup (dir : String)
  | logInfo
  | logWarn
  | logError
  | prepareAuthState (dir : String)
  | makeSocket
  | delayMs (ms : Nat)
  | requestPairing (number : String)
  | sendResponse (r : Resp)
  | attachCredsHandler
  | attachConnHandler
  | armTimer (ms : Nat)
  | readFile (p : String)
  | sendDocument (jid mimetype fileName : String)
  | sendText (jid text : String)
  | exitProcess (code : Nat)
  | routerGetReqRes
deriving DecidableEq

/-- Line 17: the session timeout in milliseconds (300 seconds). -/
def SESSION_TIMEOUT : Nat := 300000

/-- Line 18: the reconnect backoff in milliseconds (5 seconds). -/
def RECONNECT_INTERVAL : Nat := 5000

/-- Line 53: the per-number session directory (the constant working
directory prefix is omitted). -/
def sessionDir (number : String) : String := "session_" ++ number

/-- Line 100: the credentials file inside the session directory. -/
def credsPath (dir : String) : String := dir ++ "/creds.json"

/-- Line 99: the protocol address of the requesting user (the external
normalizer is the identity on addresses of this shape). -/
def userJid (number : String) : String := number ++ "@s.whatsapp.net"

/-- Lines 115-118: the fixed advisory text sent after the credentials. -/
def advisoryText : String :=
  "*Important Instructions*\n\n🔒 Keep your session file secure\n☠️ NEVER SHARE WITH ANYONE\n\nContact developer: wa.me/263777124998"

/-- String wrapper of the normalizer, as used on line 73. -/
def formatPhoneNumberS (s : String) : String :=
  List.asString (formatPhoneNumber s.data)

/-- Oracle for the open-branch collaborator calls: result of the
credential-file read (line 106) and success of the two sends (lines
107 and 114). -/
structure ConnOracle where
  readCreds : Except Unit (List Nat)
  sendDocOk : Bool
  sendTextOk : Bool

/-- Payload of a connection-update event, lines 92-93: the connection
field and the status code reached through the optional chain on the
last-disconnect error (none when any link of the chain is absent). -/
structure UpdateEvent where
  connection : Option String
  statusCode : Option Nat
deriving DecidableEq

/-- Embedding of the open branch, src/pair.js lines 95-131: log, wait
five seconds, read the credentials file, send it as a document to the
user address, send the advisory text, wait one second, clean up and exit
with success; any failure is caught at line 126, which logs, cleans up
and exits with failure. -/
def openBranch (dir num : String) (o : ConnOracle) : List Act :=
  Act.logInfo :: Act.delayMs 5000 :: Act.readFile (credsPath dir) ::
    (match o.readCreds with
     | Except.error _ => [Act.logError, Act.cleanup dir, Act.exitProcess 1]
     | Except.ok _ =>
       Act.sendDocument (userJid num) "application/json" "creds.json" ::
         (if o.sendDocOk then
            Act.sendText (userJid num) advisoryText ::
              (if o.sendTextOk then
                 [Act.delayMs 1000, Act.cleanup dir, Act.exitProcess 0]
               else [Act.logError, Act.cleanup dir, Act.exitProcess 1])
          else [Act.logError, Act.cleanup dir, Act.exitProcess 1]))

/-- Embedding of the close branch, src/pair.js lines 133-142: on any
status code other than 401 log, wait the reconnect backoff and perform
the router.get call with the stale request and response objects; on 401
log the authentication failure and clean up. -/
def closeBranch (dir : String) (statusCode : Option Nat) : List Act :=
  if statusCode ≠ some 401 then
    [Act.logInfo, Act.delayMs RECONNECT_INTERVAL, Act.routerGetReqRes]
  else
    [Act.logError, Act.cleanup dir]

/-- Embedding of the connection-update handler, src/pair.js lines
92-143: the open branch runs when the connection field is open, the
close branch when it is close. -/
def connectionUpdate (dir num : String) (ev : UpdateEvent) (o : ConnOracle) : List Act :=
  (if ev.connection = some "open" then openBranch dir num o else []) ++
    (if ev.connection = some "close" then closeBranch dir ev.statusCode else [])

/-- Oracle for the synchronous part of the route handler: the query
parameter (line 47), the registration flag of the fresh auth state
(line 71) and the result of the pairing-code request (line 76). -/
structure MainOracle where
  number : Option String
  registered : Bool
  pairingResult : Except Unit String

/-- Outcome of the synchronous part of the route handler: the calls it
made in order, the response it wrote (if any), and whether it reached
the lines that attach the connection-update handler (line 92) and arm
the timeout timer (line 146). -/
structure HandlerOutcome where
  trace : List Act
  response : Option Resp
  connAttached : Bool
  timerArmed : Bool

/-- Embedding of the synchronous part of the route handler, src/pair.js
lines 45-161.  A missing number is answered 400 at once (line 50).  An
initialization failure (auth-state creation or socket construction,
after the cleanup of line 54) is caught at line 156 and answered 500.
When the fresh credentials are not registered the handler waits two
seconds, normalizes the number and requests a pairing code: on success
it returns the code (line 77) and on failure it cleans up and returns
500 (line 85); both returns happen before line 92, so in this branch
neither the connection-update handler nor the timeout timer is ever
installed.  Only in the already-registered branch are the handlers
attached and the timer armed, with no response written synchronously. -/
def routerGet (o : MainOracle) (initError : Bool) : HandlerOutcome :=
  match o.number with
  | none => ⟨[Act.sendResponse Resp.badRequest], some Resp.badRequest, false, false⟩
  | some num =>
    if initError then
      ⟨[Act.cleanup (sessionDir num), Act.logError, Act.sendResponse Resp.initFailed],
       some Resp.initFailed, false, false⟩
    else if o.registered = false then
      match o.pairingResult with
      | Except.ok code =>
        ⟨[Act.cleanup (sessionDir num), Act.prepareAuthState (sessionDir num),
          Act.makeSocket, Act.delayMs 2000,
          Act.requestPairing (formatPhoneNumberS num),
          Act.sendResponse (Resp.pairing code)],
         some (Resp.pairing code), false, false⟩
      | Except.error _ =>
        ⟨[Act.cleanup (sessionDir num), Act.prepareAuthState (sessionDir num),
          Act.makeSocket, Act.delayMs 2000,
          Act.requestPairing (formatPhoneNumberS num),
          Act.logError, Act.cleanup (sessionDir num),
          Act.sendResponse Resp.pairingFailed],
         some Resp.pairingFailed, false, false⟩
    else
      ⟨[Act.cleanup (sessionDir num), Act.prepareAuthState (sessionDir num),
        Act.makeSocket, Act.attachCredsHandler, Act.attachConnHandler,
        Act.armTimer SESSION_TIMEOUT],
       none, true, true⟩

/-- Embedding of the timeout guard body, src/pair.js lines 146-154: when
the timer fires with the credentials still unregistered it logs, cleans
up, and writes the 408 response exactly when no response was sent
before; when the credentials are registered it does nothing. -/
def timeoutGuard (dir : String) (registeredAtFire headersSent : Bool) : List Act :=
  if registeredAtFire = false then
    Act.logWarn :: Act.cleanup dir ::
      (if headersSent = false then [Act.sendResponse Resp.timedOut] else [])
  else []

/-- Asynchronous events an attempt can receive after the synchronous
part of the handler returns: the timeout timer firing (with the value of
the registration flag at that moment) and a connection update. -/
inductive AsyncEvent where
  | timerFire (registeredAtFire : Bool)
  | connUpdate (ev : UpdateEvent) (o : ConnOracle)

/-- Event-loop model: asynchronous events are dispatched in order.  A
timer event runs the guard only when the timer was armed, and a timer
fires at most once; the response-sent flag is updated by the guard (it
writes exactly when the flag is clear and the registration flag is
clear).  A connection update runs the connection-update handler only
when it was attached.  The connection-update handler never touches the
response object, so the flag is unchanged by it. -/
def runEvents (dir num : String) : Bool → Bool → Bool → List AsyncEvent → List Act
  | _, _, _, [] => []
  | attached, true, hs, AsyncEvent.timerFire r :: rest =>
      timeoutGuard dir r hs ++ runEvents dir num attached false (hs || !r) rest
  | attached, false, hs, AsyncEvent.timerFire _ :: rest =>
      runEvents dir num attached false hs rest
  | true, armed, hs, AsyncEvent.connUpdate ev o :: rest =>
      connectionUpdate dir num ev o ++ runEvents dir num true armed hs rest
  | false, armed, hs, AsyncEvent.connUpdate _ _ :: rest =>
      runEvents dir num false armed hs rest

/-- One whole attempt: the synchronous handler followed by the
asynchronous events, with the handler outcome deciding whether the
connection-update handler and the timer are live and whether a response
was already written. -/
def runAttempt (o : MainOracle) (initError : Bool) (evs : List AsyncEvent) : List Act :=
  (routerGet o initError).trace ++
    runEvents (sessionDir (o.number.getD "")) (o.number.getD "")
      (routerGet o initError).connAttached
      (routerGet o initError).timerArmed
      ((routerGet o initError).response.isSome) evs

/-- C5: a close event carrying the permanent-unauthorized status 401
discards the session storage, logs the authentication failure, and
performs no reconnect attempt of any kind (no delay, no router.get
call): the attempt is terminal with a failure report, whatever happened
before. -/
theorem close_unauthorized_terminal (dir num : String) (o : ConnOracle) :
    connectionUpdate dir num ⟨some "close", some 401⟩ o =
      [Act.logError, Act.cleanup dir]
  ∧ Act.routerGetReqRes ∉ connectionUpdate dir num ⟨some "close", some 401⟩ o
  ∧ (∀ ms, Act.delayMs ms ∉ connectionUpdate dir num ⟨some "close", some 401⟩ o) := by
  have h : connectionUpdate dir num ⟨some "close", some 401⟩ o =
      [Act.logError, Act.cleanup dir] := by
    unfold connectionUpdate closeBranch
    rw [if_neg (by decide), if_pos rfl, if_neg (by decide)]
    simp
  refine ⟨h, ?_, ?_⟩
  · rw [h]; simp
  · intro ms; rw [h]; simp

/-- C6: on a connection-open event the handler performs, in order, the
five-second settle delay, the credentials read, the document send of the
credential blob to the user address, the fixed advisory text send, the
one-second delay, the storage discard and the success exit; a read
failure or either send failure instead leads to the storage discard and
the failure exit. -/
theorem open_event_transfer_sequence (dir num : String) (sc : Option Nat)
    (bytes : List Nat) (t : Bool) :
    connectionUpdate dir num ⟨some "open", sc⟩ ⟨Except.ok bytes, true, true⟩ =
      [Act.logInfo, Act.delayMs 5000, Act.readFile (credsPath dir),
       Act.sendDocument (userJid num) "application/json" "creds.json",
       Act.sendText (userJid num) advisoryText,
       Act.delayMs 1000, Act.cleanup dir, Act.exitProcess 0]
  ∧ connectionUpdate dir num ⟨some "open", sc⟩ ⟨Except.error (), true, true⟩ =
      [Act.logInfo, Act.delayMs 5000, Act.readFile (credsPath dir),
       Act.logError, Act.cleanup dir, Act.exitProcess 1]
  ∧ connectionUpdate dir num ⟨some "open", sc⟩ ⟨Except.ok bytes, false, t⟩ =
      [Act.logInfo, Act.delayMs 5000, Act.readFile (credsPath dir),
       Act.sendDocument (userJid num) "application/json" "creds.json",
       Act.logError, Act.cleanup dir, Act.exitProcess 1]
  ∧ connectionUpdate dir num ⟨some "open", sc⟩ ⟨Except.ok bytes, true, false⟩ =
      [Act.logInfo, Act.delayMs 5000, Act.readFile (credsPath dir),
       Act.sendDocument (userJid num) "application/json" "creds.json",
       Act.sendText (userJid num) advisoryText,
       Act.logError, Act.cleanup dir, Act.exitProcess 1] := by
  have hc : ¬((some "open" : Option String) = some "close") := by decide
  refine ⟨?_, ?_, ?_, ?_⟩ <;>
    · unfold connectionUpdate
      rw [if_pos rfl, if_neg hc]
      simp [openBranch]

/-- C9: when the remote rejects the pairing-code request the handler
discards the session storage and answers the caller with the 500
response carrying the message about the failed pairing-code generation;
no connection-update handler is attached and no timer is armed
afterwards, so the attempt is terminal. -/
theorem pairing_code_failure_terminal_response (num : String) :
    (routerGet ⟨some num, false, Except.error ()⟩ false).response = some Resp.pairingFailed
  ∧ Resp.statusCode Resp.pairingFailed = 500
  ∧ Resp.errorMessage Resp.pairingFailed = some "Failed to generate pairing code"
  ∧ (routerGet ⟨some num, false, Except.error ()⟩ false).trace =
      [Act.cleanup (sessionDir num), Act.prepareAuthState (sessionDir num),
       Act.makeSocket, Act.delayMs 2000,
       Act.requestPairing (formatPhoneNumberS num),
       Act.logError, Act.cleanup (sessionDir num),
       Act.sendResponse Resp.pairingFailed]
  ∧ (routerGet ⟨some num, false, Except.error ()⟩ false).connAttached = false
  ∧ (routerGet ⟨some num, false, Except.error ()⟩ false).timerArmed = false :=
  ⟨rfl, rfl, rfl, rfl, rfl, rfl⟩

/-- C1 fails on the code: in the unregistered branch with a successful
pairing-code request the handler writes the pairing response and then
returns on line 77, before line 92 ever attaches the connection-update
handler; a subsequent connection-open event is therefore never observed
and no credential transfer happens.  The run of the whole attempt with
an open event equals the synchronous trace alone and contains no
document send. -/
theorem pairing_success_open_event_not_handled :
    (routerGet ⟨some "0771234567", false, Except.ok "ABCD-1234"⟩ false).response =
      some (Resp.pairing "ABCD-1234")
  ∧ (routerGet ⟨some "0771234567", false, Except.ok "ABCD-1234"⟩ false).connAttached = false
  ∧ runAttempt ⟨some "0771234567", false, Except.ok "ABCD-1234"⟩ false
      [AsyncEvent.connUpdate ⟨some "open", none⟩ ⟨Except.ok [123], true, true⟩] =
      (routerGet ⟨some "0771234567", false, Except.ok "ABCD-1234"⟩ false).trace
  ∧ Act.sendDocument (userJid "0771234567") "application/json" "creds.json" ∉
      runAttempt ⟨some "0771234567", false, Except.ok "ABCD-1234"⟩ false
        [AsyncEvent.connUpdate ⟨some "open", none⟩ ⟨Except.ok [123], true, true⟩] := by
  decide

/-- C4 fails on the code: in the unregistered branch the handler returns
on line 77 (or 85) before line 146, so the timeout timer is never armed
for the pairing flow; a timer event while unregistered is inert (no
storage discard, no 408 response).  The timer is only armed in the
already-registered branch. -/
theorem session_timer_not_armed_when_unregistered :
    (routerGet ⟨some "0771234567", false, Except.ok "ABCD-1234"⟩ false).timerArmed = false
  ∧ Act.armTimer SESSION_TIMEOUT ∉
      (routerGet ⟨some "0771234567", false, Except.ok "ABCD-1234"⟩ false).trace
  ∧ runAttempt ⟨some "0771234567", false, Except.ok "ABCD-1234"⟩ false
      [AsyncEvent.timerFire false] =
      (routerGet ⟨some "0771234567", false, Except.ok "ABCD-1234"⟩ false).trace
  ∧ (routerGet ⟨some "0771234567", true, Except.ok "ABCD-1234"⟩ false).timerArmed = true := by
  decide

/-- C2 fails on the code: on a close event with a transient (non-401)
cause the handler waits the five-second backoff and then calls
router.get with the stale request and response objects — an Express
route registration that raises a TypeError because neither argument is
a function — so the INITIALIZING step is not re-run: no storage
preparation and no new socket happen for the identity. -/
theorem close_transient_no_reinit :
    connectionUpdate "session_0771234567" "0771234567" ⟨some "close", some 428⟩
        ⟨Except.ok [123], true, true⟩ =
      [Act.logInfo, Act.delayMs RECONNECT_INTERVAL, Act.routerGetReqRes]
  ∧ Act.prepareAuthState "session_0771234567" ∉
      connectionUpdate "session_0771234567" "0771234567" ⟨some "close", some 428⟩
        ⟨Except.ok [123], true, true⟩
  ∧ Act.makeSocket ∉
      connectionUpdate "session_0771234567" "0771234567" ⟨some "close", some 428⟩
        ⟨Except.ok [123], true, true⟩ := by
  decide

/-- Whether a call writes to the response channel of the caller. -/
def isSend : Act → Bool
  | Act.sendResponse _ => true
  | _ => false

/-- Number of response writes in a trace. -/
def sendCount (t : List Act) : Nat := (t.filter isSend).length

lemma sendCount_append (a b : List Act) :
    sendCount (a ++ b) = sendCount a + sendCount b := by
  simp [sendCount, List.filter_append]

lemma sendCount_openBranch (dir num : String) (o : ConnOracle) :
    sendCount (openBranch dir num o) = 0 := by
  rcases o with ⟨rc, sd, st⟩
  rcases rc with e | b <;> cases sd <;> cases st <;>
    simp [openBranch, sendCount, isSend, List.filter]

lemma sendCount_closeBranch (dir : String) (sc : Option Nat) :
    sendCount (closeBranch dir sc) = 0 := by
  unfold closeBranch
  rcases Decidable.em (sc = some 401) with h | h
  · rw [if_neg (not_not_intro h)]
    simp [sendCount, isSend, List.filter]
  · rw [if_pos h]
    simp [sendCount, isSend, List.filter]

lemma sendCount_connectionUpdate (dir num : String) (ev : UpdateEvent) (o : ConnOracle) :
    sendCount (connectionUpdate dir num ev o) = 0 := by
  unfold connectionUpdate
  rw [sendCount_append]
  rcases Decidable.em (ev.connection = some "open") with h1 | h1
  · have h2 : ¬(ev.connection = some "close") := by rw [h1]; decide
    rw [if_pos h1, if_neg h2, sendCount_openBranch]
    simp [sendCount]
  · rcases Decidable.em (ev.connection = some "close") with h2 | h2
    · rw [if_neg h1, if_pos h2, sendCount_closeBranch]
      simp [sendCount]
    · rw [if_neg h1, if_neg h2]
      simp [sendCount]

lemma sendCount_timeoutGuard_le_one (dir : String) (r hs : Bool) :
    sendCount (timeoutGuard dir r hs) ≤ 1 := by
  cases r <;> cases hs <;> simp [timeoutGuard, sendCount, isSend, List.filter]

lemma sendCount_runEvents_unarmed (dir num : String) (evs : List AsyncEvent) :
    ∀ attached hs, sendCount (runEvents dir num attached false hs evs) = 0 := by
  induction evs with
  | nil => intro attached hs; simp [runEvents, sendCount]
  | cons e rest ih =>
    intro attached hs
    cases e with
    | timerFire r =>
      simp only [runEvents]
      exact ih attached hs
    | connUpdate ev o =>
      cases attached with
      | false =>
        simp only [runEvents]
        exact ih false hs
      | true =>
        simp only [runEvents]
        rw [sendCount_append, sendCount_connectionUpdate]
        simpa using ih true hs

lemma sendCount_runEvents_armed_le_one (dir num : String) (evs : List AsyncEvent) :
    ∀ attached hs, sendCount (runEvents dir num attached true hs evs) ≤ 1 := by
  induction evs with
  | nil => intro attached hs; simp [runEvents, sendCount]
  | cons e rest ih =>
    intro attached hs
    cases e with
    | timerFire r =>
      simp only [runEvents]
      rw [sendCount_append, sendCount_runEvents_unarmed]
      have hg := sendCount_timeoutGuard_le_one dir r hs
      omega
    | connUpdate ev o =>
      cases attached with
      | false =>
        simp only [runEvents]
        exact ih false hs
      | true =>
        simp only [runEvents]
        rw [sendCount_append, sendCount_connectionUpdate]
        simpa using ih true hs

lemma sendCount_trace_append_le (dir num : String) (t : List Act)
    (attached armed hs : Bool) (evs : List AsyncEvent)
    (h1 : sendCount t ≤ 1)
    (h2 : armed = true → sendCount t = 0) :
    sendCount (t ++ runEvents dir num attached armed hs evs) ≤ 1 := by
  rw [sendCount_append]
  cases armed with
  | false =>
    rw [sendCount_runEvents_unarmed]
    omega
  | true =>
    have h3 := sendCount_runEvents_armed_le_one dir num evs attached hs
    have h0 := h2 rfl
    omega

/-- C3: at most one response is ever written to the caller per attempt,
over every oracle and every sequence of asynchronous events: each
synchronous return path writes exactly once and leaves neither the
connection-update handler nor the timer live, the timeout guard writes
only when no response was sent before, and the connection-update handler
never writes to the response channel. -/
theorem at_most_one_response (o : MainOracle) (initError : Bool)
    (evs : List AsyncEvent) : sendCount (runAttempt o initError evs) ≤ 1 := by
  rcases o with ⟨n, reg, pr⟩
  unfold runAttempt
  apply sendCount_trace_append_le
  · rcases n with _ | num
    · simp [routerGet, sendCount, isSend]
    · cases initError with
      | true => simp [routerGet, sendCount, isSend]
      | false =>
        cases reg with
        | false =>
          rcases pr with e | code
          · simp [routerGet, sendCount, isSend]
          · simp [routerGet, sendCount, isSend]
        | true => simp [routerGet, sendCount, isSend]
  · intro harm
    rcases n with _ | num
    · simp [routerGet] at harm
    · cases initError with
      | true => simp [routerGet] at harm
      | false =>
        cases reg with
        | false =>
          rcases pr with e | code
          · simp [routerGet] at harm
          · simp [routerGet] at harm
        | true => simp [routerGet, sendCount, isSend]
